import Mathlib

/-!
Shallow embedding of the Fossibot BLE register-protocol client
(`src/ble/ble_client.cpp`, `src/ble/fossibot_protocol.h`).

Bytes are modelled as `Nat` (values < 256 where the source guarantees it),
16-bit machine arithmetic as `Nat` with explicit `% 65536` where the source
truncates, and the C `float` telemetry fields as `ℚ` (all decisive
comparisons in the claims are exact in both representations).
-/

namespace Fossibot

/-- One byte step of the CRC-16/Modbus loop from `requestStatusData` /
`requestSettingsData` / `sendCommand`: xor the byte into the running CRC,
then eight rounds of LSB-first shift with polynomial 0xA001. -/
def crcByte (crc b : Nat) : Nat :=
  let rec bits : Nat → Nat → Nat
    | c, 0 => c
    | c, j + 1 => bits (if c % 2 = 1 then (c >>> 1) ^^^ 0xA001 else c >>> 1) j
  bits (crc ^^^ b) 8

/-- CRC-16/Modbus over a byte list, seed 0xFFFF, as computed by the three
identical loops in `ble_client.cpp`. -/
def crc16_modbus (bytes : List Nat) : Nat :=
  bytes.foldl crcByte 0xFFFF

/-- Append the CRC of the 6-byte payload, high byte first then low byte
(`command[6] = (crc >> 8) & 0xFF; command[7] = crc & 0xFF;`). -/
def appendCrc (payload : List Nat) : List Nat :=
  let crc := crc16_modbus payload
  payload ++ [(crc >>> 8) &&& 0xFF, crc &&& 0xFF]

/-- Frame written by `FossibotBLE::requestStatusData`. -/
def requestStatusFrame : List Nat :=
  appendCrc [0x11, 0x04, 0x00, 0x00, 0x00, 0x50]

/-- Frame written by `FossibotBLE::requestSettingsData`. -/
def requestSettingsFrame : List Nat :=
  appendCrc [0x11, 0x03, 0x00, 0x00, 0x00, 0x50]

/-- Frame written by `FossibotBLE::sendCommand(reg, value)`; `reg` is a
`uint8_t` and `value` a `uint16_t`, so the payload bytes are the casts the
source performs. -/
def writeSingleFrame (reg value : Nat) : List Nat :=
  appendCrc [0x11, 0x06, 0x00, reg % 256, (value >>> 8) % 256, value % 256]

/-- Opcode of a status notification (`Fossibot::OPCODE_STATUS`). -/
def OPCODE_STATUS : Nat := 0x1104

/-- Opcode of a settings notification (`Fossibot::OPCODE_SETTINGS`). -/
def OPCODE_SETTINGS : Nat := 0x1103

/-- The `getRegValue` lambda shared by `parseStatusData` and
`parseSettingsData`.  The source stores the offset in a `uint16_t`
(`uint16_t offset = 6 + (regIndex * 2);`), so the offset computation
truncates modulo 65536; the bounds test `offset + 1 >= length` is then
performed without further truncation, and in-range registers are read
big-endian (`(data[offset] << 8) | data[offset + 1]`). -/
def getRegValue (data : List Nat) (regIndex : Nat) : Nat :=
  let offset := (6 + regIndex * 2) % 65536
  if data.length ≤ offset + 1 then 0
  else (data.getD offset 0) <<< 8 ||| data.getD (offset + 1) 0

/-- Bounds-checked shadow of `getRegValue`: every buffer access goes through
`List.get?`, and the whole lookup fails (`none`) if any access is out of
bounds.  Agreement with `getRegValue` states that the source's guarded
reads never leave the buffer. -/
def getRegValueChecked (data : List Nat) (regIndex : Nat) : Option Nat :=
  let offset := (6 + regIndex * 2) % 65536
  if data.length ≤ offset + 1 then some 0
  else do
    let hi ← data.get? offset
    let lo ← data.get? (offset + 1)
    some (hi <<< 8 ||| lo)

/-- `Fossibot::PowerBankData` (`fossibot_protocol.h`), with the `float`
fields as `ℚ` and the `int` fields as `ℤ`.  Default field values are the
member initialisers of the struct. -/
structure PowerBankData where
  connected : Bool := false
  batteryPercent : ℚ := 0
  batteryVoltage : ℚ := 0
  inputPower : ℚ := 0
  outputPower : ℚ := 0
  acInputPower : ℚ := 0
  dcInputPower : ℚ := 0
  usbActive : Bool := false
  dcActive : Bool := false
  acActive : Bool := false
  minutesToFull : ℤ := -1
  minutesToEmpty : ℤ := -1
  settingsReceived : Bool := false
  buzzerEnabled : Bool := true
  silentCharging : Bool := false
  lightMode : ℤ := 0
  dischargeLimit : ℤ := 0
  chargeLimit : ℤ := 100
  screenTimeout : ℤ := 60
  sysStandby : ℤ := 5
  acStandby : ℤ := 60
  dcStandby : ℤ := 60
  usbStandby : ℤ := 300
  scheduleCharge : ℤ := 0
  lastBatteryPercent : ℚ := -1
  lastInputPower : ℚ := -1
  lastOutputPower : ℚ := -1
  deriving DecidableEq, Repr

/-- A freshly constructed `PowerBankData` (all member initialisers). -/
def pbInit : PowerBankData := {}

/-- `PowerBankData::hasSignificantChange(socThreshold, powerThreshold)`. -/
def hasSignificantChange (d : PowerBankData) (socThreshold powerThreshold : ℤ) :
    Bool :=
  if d.lastBatteryPercent < 0 then true
  else if (socThreshold : ℚ) ≤ |d.batteryPercent - d.lastBatteryPercent| then true
  else if (powerThreshold : ℚ) ≤ |d.inputPower - d.lastInputPower| then true
  else if (powerThreshold : ℚ) ≤ |d.outputPower - d.lastOutputPower| then true
  else false

/-- `PowerBankData::markRefreshed()`. -/
def markRefreshed (d : PowerBankData) : PowerBankData :=
  { d with
    lastBatteryPercent := d.batteryPercent
    lastInputPower := d.inputPower
    lastOutputPower := d.outputPower }

/-- `FossibotBLE::parseStatusData`: drops payloads shorter than 10 bytes,
otherwise maps the status registers into `_data`. -/
def parseStatusData (data : List Nat) (d : PowerBankData) : PowerBankData :=
  if data.length < 10 then d
  else
    { d with
      acInputPower := (getRegValue data 3 : ℚ)
      dcInputPower := (getRegValue data 4 : ℚ)
      inputPower := (getRegValue data 6 : ℚ)
      outputPower := (getRegValue data 39 : ℚ)
      batteryVoltage := (getRegValue data 22 : ℚ) / 100
      batteryPercent := (getRegValue data 56 : ℚ) / 10
      usbActive := getRegValue data 41 &&& 512 != 0
      dcActive := getRegValue data 41 &&& 1024 != 0
      acActive := getRegValue data 41 &&& 2048 != 0
      minutesToFull := (getRegValue data 58 : ℤ)
      minutesToEmpty := (getRegValue data 59 : ℤ) }

/-- `FossibotBLE::parseSettingsData`: drops payloads shorter than 10 bytes,
otherwise maps the settings registers into `_data`. -/
def parseSettingsData (data : List Nat) (d : PowerBankData) : PowerBankData :=
  if data.length < 10 then d
  else
    { d with
      lightMode := (getRegValue data 27 : ℤ)
      buzzerEnabled := getRegValue data 56 == 1
      silentCharging := getRegValue data 57 == 1
      screenTimeout := (getRegValue data 59 : ℤ)
      acStandby := (getRegValue data 60 : ℤ)
      dcStandby := (getRegValue data 61 : ℤ)
      usbStandby := (getRegValue data 62 : ℤ)
      scheduleCharge := (getRegValue data 63 : ℤ)
      dischargeLimit := (getRegValue data 66 / 10 : ℤ)
      chargeLimit := (getRegValue data 67 / 10 : ℤ)
      sysStandby := (getRegValue data 68 : ℤ)
      settingsReceived := true }

/-- `FossibotBLE::notifyCallback`: reads the big-endian opcode from the
first two bytes when at least two are present and dispatches to the
matching parser; everything else leaves the telemetry untouched. -/
def notifyCallback (data : List Nat) (d : PowerBankData) : PowerBankData :=
  if 2 ≤ data.length then
    let opcode := (data.getD 0 0) <<< 8 ||| data.getD 1 0
    if opcode == OPCODE_STATUS then parseStatusData data d
    else if opcode == OPCODE_SETTINGS then parseSettingsData data d
    else d
  else d

/-- The reconnection bookkeeping of `FossibotBLE::update` (the function's
static locals `lastReconnectAttempt`, `consecutiveFailures`, plus the
`_connected` flag). -/
structure UpdateState where
  connected : Bool
  consecutiveFailures : Nat
  lastReconnectAttempt : Nat
  deriving DecidableEq, Repr

/-- `MAX_FAILURES` in `FossibotBLE::update`. -/
def MAX_FAILURES : Nat := 5

/-- The retry interval computed by `FossibotBLE::update`:
`60000 * (1 << min(consecutiveFailures, 2))` milliseconds. -/
def retryInterval (consecutiveFailures : Nat) : Nat :=
  60000 * (1 <<< min consecutiveFailures 2)

/-- One tick of the disconnected branch of `FossibotBLE::update` at time
`now` (milliseconds), where `connectResult` is the outcome
`connectToDevice()` would report.  Returns the new state and whether a
connection attempt was made this tick. -/
def updateDisconnected (s : UpdateState) (now : Nat) (connectResult : Bool) :
    UpdateState × Bool :=
  if MAX_FAILURES ≤ s.consecutiveFailures then (s, false)
  else if retryInterval s.consecutiveFailures < now - s.lastReconnectAttempt then
    if connectResult then
      ({ connected := true
         consecutiveFailures := 0
         lastReconnectAttempt := now }, true)
    else
      ({ s with
         consecutiveFailures := s.consecutiveFailures + 1
         lastReconnectAttempt := now }, true)
  else (s, false)

/-- Run a sequence of disconnected update ticks, counting the connection
attempts made. -/
def runTicks (s : UpdateState) (ticks : List (Nat × Bool)) :
    UpdateState × Nat :=
  ticks.foldl
    (fun acc t =>
      let r := updateDisconnected acc.1 t.1 t.2
      (r.1, acc.2 + if r.2 then 1 else 0))
    (s, 0)

/-- What the BLE transport would report during a connection attempt:
whether `_client->connect` succeeds (on either address type), and which
service/characteristic lookups succeed, and whether the notify
characteristic advertises notification support (`canNotify`). -/
structure DiscoveryEnv where
  connectOk : Bool
  servicePresent : Bool
  writeCharPresent : Bool
  notifyCharPresent : Bool
  canNotify : Bool
  deriving DecidableEq, Repr

/-- `FossibotBLE::discoverServices`, returning (success, subscribed).
The source returns `false` when the service, write characteristic or
notify characteristic is missing; it subscribes only when
`_notifyChar->canNotify()` holds, but returns `true` in either case. -/
def discoverServices (env : DiscoveryEnv) : Bool × Bool :=
  if !env.servicePresent then (false, false)
  else if !env.writeCharPresent then (false, false)
  else if !env.notifyCharPresent then (false, false)
  else (true, env.canNotify)

/-- `FossibotBLE::connectToDevice` outcome: `false` when the transport
connect fails or service discovery fails (in which case the source calls
`disconnect()`), `true` when the attempt reaches the connected state. -/
def connectToDevice (env : DiscoveryEnv) : Bool :=
  if !env.connectOk then false
  else (discoverServices env).1

/-- The client state visible to the command path: the `_connected` flag,
whether `_writeChar` is cached, the telemetry struct, and the frames
written to the transport so far (newest last). -/
structure ClientState where
  connected : Bool
  hasWriteChar : Bool
  data : PowerBankData
  written : List (List Nat)
  deriving DecidableEq, Repr

/-- `FossibotBLE::sendCommand(reg, value)`: dropped unless `_connected`
and `_writeChar` are both set, otherwise the 8-byte write-single-register
frame is written to the transport.  Nothing else changes. -/
def sendCommand (st : ClientState) (reg value : Nat) : ClientState :=
  if !st.connected || !st.hasWriteChar then st
  else { st with written := st.written ++ [writeSingleFrame reg value] }

/-- `FossibotBLE::toggleUSB`. -/
def toggleUSB (st : ClientState) : ClientState :=
  sendCommand st 24 (if st.data.usbActive then 0 else 1)

/-- `FossibotBLE::toggleDC`. -/
def toggleDC (st : ClientState) : ClientState :=
  sendCommand st 25 (if st.data.dcActive then 0 else 1)

/-- `FossibotBLE::toggleAC`. -/
def toggleAC (st : ClientState) : ClientState :=
  sendCommand st 26 (if st.data.acActive then 0 else 1)

/-- `FossibotBLE::setBuzzerEnabled`. -/
def setBuzzerEnabled (st : ClientState) (enabled : Bool) : ClientState :=
  sendCommand st 56 (if enabled then 1 else 0)

/-- `FossibotBLE::setChargeLimit` (clamps to 60..100, writes 0.1% units). -/
def setChargeLimit (st : ClientState) (percent : ℤ) : ClientState :=
  let p := if percent < 60 then 60 else if 100 < percent then 100 else percent
  sendCommand st 67 (p * 10).toNat

/-- `FossibotBLE::powerOff` (writes 1 to register 64). -/
def powerOff (st : ClientState) : ClientState :=
  sendCommand st 64 1

/-! ## Theorems -/

set_option maxRecDepth 8000 in
/-- C1.  The encoded status read request is exactly
`[0x11, 0x04, 0x00, 0x00, 0x00, 0x50, crc_hi, crc_lo]` where `crc_hi`/`crc_lo`
are the high and low bytes of the CRC-16/Modbus of the first 6 bytes,
appended high byte first (concretely `0xA6 0xF2`); the settings read and the
write-single-register frames use the same CRC computation and the same
high-then-low CRC byte order. -/
theorem c1_frame_encoding :
    requestStatusFrame =
      [0x11, 0x04, 0x00, 0x00, 0x00, 0x50,
       (crc16_modbus [0x11, 0x04, 0x00, 0x00, 0x00, 0x50] >>> 8) &&& 0xFF,
       crc16_modbus [0x11, 0x04, 0x00, 0x00, 0x00, 0x50] &&& 0xFF] ∧
    requestStatusFrame = [0x11, 0x04, 0x00, 0x00, 0x00, 0x50, 0xA6, 0xF2] ∧
    requestSettingsFrame =
      [0x11, 0x03, 0x00, 0x00, 0x00, 0x50,
       (crc16_modbus [0x11, 0x03, 0x00, 0x00, 0x00, 0x50] >>> 8) &&& 0xFF,
       crc16_modbus [0x11, 0x03, 0x00, 0x00, 0x00, 0x50] &&& 0xFF] ∧
    ∀ reg value : Nat,
      writeSingleFrame reg value =
        [0x11, 0x06, 0x00, reg % 256, (value >>> 8) % 256, value % 256] ++
        [(crc16_modbus
            [0x11, 0x06, 0x00, reg % 256, (value >>> 8) % 256, value % 256]
              >>> 8) &&& 0xFF,
         crc16_modbus
            [0x11, 0x06, 0x00, reg % 256, (value >>> 8) % 256, value % 256]
              &&& 0xFF] := by
  refine ⟨rfl, by decide, rfl, fun reg value => rfl⟩

/-- C2 counterexample.  The claim quantifies over all u16 register indices
and asserts that any index whose byte offset `6 + 2*index` (or that offset
plus 1) lies outside the payload yields value 0.  The source stores the
offset in a `uint16_t`, so for index 32765 the offset `6 + 65530 = 65536`
wraps to 0 and the lookup reads the opcode bytes at the start of a 10-byte
payload, returning `0x1104`, not 0. -/
theorem c2_counterexample :
    getRegValue [0x11, 0x04, 0, 0, 0, 0, 0, 0, 0, 0] 32765 = 0x1104 ∧
    (0x1104 : Nat) ≠ 0 ∧
    32765 < 65536 ∧
    ([0x11, 0x04, 0, 0, 0, 0, 0, 0, 0, 0] : List Nat).length ≤ 6 + 32765 * 2 := by
  decide

/-- C2 amended.  For every payload and register index: the offset is
computed modulo 65536 (`uint16_t`); whenever that wrapped offset, or the
wrapped offset plus 1, is not within the payload length, the decoded value
is 0; and the lookup never reads outside the buffer (the bounds-checked
shadow decoder agrees with it everywhere). -/
theorem c2_regvalue_lenient (data : List Nat) (i : Nat) :
    getRegValueChecked data i = some (getRegValue data i) ∧
    (data.length ≤ (6 + i * 2) % 65536 + 1 → getRegValue data i = 0) := by
  constructor
  · unfold getRegValueChecked getRegValue
    simp only [List.get?_eq_getElem?, List.getD_eq_getElem?_getD]
    by_cases h : data.length ≤ (6 + i * 2) % 65536 + 1
    · simp [h]
    · push_neg at h
      rcases hq1 : data[(6 + i * 2) % 65536]? with _ | a
      · exact absurd (List.getElem?_eq_none_iff.mp hq1) (by omega)
      rcases hq2 : data[(6 + i * 2) % 65536 + 1]? with _ | b
      · exact absurd (List.getElem?_eq_none_iff.mp hq2) (by omega)
      simp [not_le.mpr h, hq1, hq2]
  · intro h
    unfold getRegValue
    simp [h]

/-- C2 amended, witness: register 2 of an all-zero 10-byte payload has
wrapped offset 10, which is out of bounds, and decodes to 0. -/
theorem c2_regvalue_lenient_witness :
    getRegValueChecked [0, 0, 0, 0, 0, 0, 0, 0, 0, 0] 2 =
      some (getRegValue [0, 0, 0, 0, 0, 0, 0, 0, 0, 0] 2) ∧
    getRegValue [0, 0, 0, 0, 0, 0, 0, 0, 0, 0] 2 = 0 :=
  ⟨(c2_regvalue_lenient [0, 0, 0, 0, 0, 0, 0, 0, 0, 0] 2).1,
   (c2_regvalue_lenient [0, 0, 0, 0, 0, 0, 0, 0, 0, 0] 2).2 (by decide)⟩

/-- Helper: once `consecutiveFailures` has reached `MAX_FAILURES`, a
disconnected update tick leaves the state unchanged and attempts nothing. -/
theorem updateDisconnected_givenUp (s : UpdateState) (now : Nat)
    (r : Bool) (h : MAX_FAILURES ≤ s.consecutiveFailures) :
    updateDisconnected s now r = (s, false) := by
  unfold updateDisconnected
  rw [if_pos h]

/-- C3.  The retry delay after `f` consecutive failures equals
`min(60000 * 2^f, 240000)` milliseconds (the sequence 60s, 120s, 240s,
240s, ...), and once `consecutiveFailures` reaches `MAX_FAILURES = 5` the
giving-up guard holds and no later update tick ever changes the state or
schedules another connection attempt. -/
theorem c3_backoff :
    (∀ f : Nat, retryInterval f = min (60000 * 2 ^ f) 240000) ∧
    (∀ (s : UpdateState) (now : Nat) (r : Bool),
      MAX_FAILURES ≤ s.consecutiveFailures →
      updateDisconnected s now r = (s, false)) ∧
    (∀ s : UpdateState, MAX_FAILURES ≤ s.consecutiveFailures →
      ∀ ticks : List (Nat × Bool), runTicks s ticks = (s, 0)) := by
  refine ⟨?_, updateDisconnected_givenUp, ?_⟩
  · intro f
    rw [retryInterval, Nat.shiftLeft_eq, one_mul]
    match f with
    | 0 => norm_num
    | 1 => norm_num
    | n + 2 =>
      have h1 : 1 ≤ 2 ^ n := Nat.one_le_two_pow
      have h4 : 2 ^ (n + 2) = 2 ^ n * 4 := by ring
      have hmin : min (n + 2) 2 = 2 := by omega
      have hge : 240000 ≤ 60000 * 2 ^ (n + 2) := by
        have := Nat.mul_le_mul_left 60000 (show 4 ≤ 2 ^ (n + 2) by omega)
        omega
      rw [hmin, Nat.min_eq_right hge]
  · intro s h ticks
    induction ticks with
    | nil => rfl
    | cons t ts ih =>
      have hstep := updateDisconnected_givenUp s t.1 t.2 h
      simp only [runTicks, List.foldl_cons, hstep] at ih ⊢
      simpa using ih

/-- C3 witness: with 5 accumulated failures, a tick at t = 10^6 ms with a
would-succeed transport makes no attempt, and the formula matches at f = 3. -/
theorem c3_backoff_witness :
    retryInterval 3 = min (60000 * 2 ^ 3) 240000 ∧
    updateDisconnected ⟨false, 5, 0⟩ 1000000 true = (⟨false, 5, 0⟩, false) ∧
    runTicks ⟨false, 5, 0⟩ [(1000000, true), (2000000, true)] =
      (⟨false, 5, 0⟩, 0) :=
  ⟨c3_backoff.1 3,
   c3_backoff.2.1 ⟨false, 5, 0⟩ 1000000 true (by decide),
   c3_backoff.2.2 ⟨false, 5, 0⟩ (by decide) [(1000000, true), (2000000, true)]⟩

/-- C4 counterexample.  After `markRefreshed`, against the claim:
a battery-percent change 44.0 → 44.1 (soc threshold 1) reports `false`
(the source compares `|Δ| >= socThreshold`, not "any nonzero amount");
a change of an output-active flag alone reports `false` (the source never
compares the flags); and an output-power change of exactly the 5 W
threshold reports `true` (the source uses `>=`, not "strictly more"). -/
theorem c4_counterexample :
    hasSignificantChange
      { markRefreshed { pbInit with batteryPercent := 44 } with
        batteryPercent := 441 / 10 } 1 5 = false ∧
    (441 / 10 : ℚ) ≠ (markRefreshed
      { pbInit with batteryPercent := 44 }).lastBatteryPercent ∧
    hasSignificantChange
      { markRefreshed { pbInit with batteryPercent := 44 } with
        usbActive := true } 1 5 = false ∧
    hasSignificantChange
      { markRefreshed { pbInit with batteryPercent := 44 } with
        outputPower := 5 } 1 5 = true := by
  refine ⟨?_, by norm_num [markRefreshed, pbInit], ?_, ?_⟩ <;>
    · simp only [hasSignificantChange, markRefreshed, pbInit]
      norm_num [le_abs]

/-- C4 amended.  Once a snapshot has been taken (`lastBatteryPercent` is no
longer negative), `hasSignificantChange` returns true iff the battery
percent differs from the snapshot by at least `socThreshold`, or the input
or output power differs by at least `powerThreshold`; the output-active
flags are never consulted, so a 2 W output-power-only difference at
threshold 5 reports false, while an exactly-5 W difference reports true,
and a 0.1 % battery change at soc threshold 1 reports false. -/
theorem c4_change_detection (d : PowerBankData) (soc pow : ℤ)
    (h : 0 ≤ d.lastBatteryPercent) :
    hasSignificantChange d soc pow = true ↔
      ((soc : ℚ) ≤ |d.batteryPercent - d.lastBatteryPercent| ∨
       (pow : ℚ) ≤ |d.inputPower - d.lastInputPower| ∨
       (pow : ℚ) ≤ |d.outputPower - d.lastOutputPower|) := by
  unfold hasSignificantChange
  rw [if_neg (not_lt.mpr h)]
  split_ifs with h1 h2 h3 <;> simp [*]

/-- C4 amended, witness: a 2 W output-power-only difference at threshold
5 W does not cross any branch of the disjunction, so the predicate is
false there. -/
theorem c4_change_detection_witness :
    hasSignificantChange
      { markRefreshed { pbInit with batteryPercent := 44 } with
        outputPower := 2 } 1 5 = false := by
  have h := c4_change_detection
    { markRefreshed { pbInit with batteryPercent := 44 } with
      outputPower := 2 } 1 5
    (by simp [markRefreshed, pbInit])
  simp only [markRefreshed, pbInit] at h ⊢
  rw [Bool.eq_false_iff, Ne, h]
  norm_num

/-- C5.  `parseStatusData` on an accepted payload maps the status
registers exactly as claimed: battery percent from register 56 / 10,
battery voltage from register 22 / 100, ac/dc/total input power from
registers 3/4/6, output power from register 39, usb/dc/ac flags from bits
9/10/11 of register 41, and minutes to full and to empty from device-reported
registers 58/59; moreover the result depends on no other register — in
particular register 20 is not used (any payload agreeing on every register
except 20 parses identically). -/
theorem c5_status_mapping (data : List Nat) (d : PowerBankData)
    (h : 10 ≤ data.length) :
    ((parseStatusData data d).batteryPercent = (getRegValue data 56 : ℚ) / 10 ∧
     (parseStatusData data d).batteryVoltage = (getRegValue data 22 : ℚ) / 100 ∧
     (parseStatusData data d).acInputPower = (getRegValue data 3 : ℚ) ∧
     (parseStatusData data d).dcInputPower = (getRegValue data 4 : ℚ) ∧
     (parseStatusData data d).inputPower = (getRegValue data 6 : ℚ) ∧
     (parseStatusData data d).outputPower = (getRegValue data 39 : ℚ) ∧
     (parseStatusData data d).usbActive = (getRegValue data 41 &&& 2 ^ 9 != 0) ∧
     (parseStatusData data d).dcActive = (getRegValue data 41 &&& 2 ^ 10 != 0) ∧
     (parseStatusData data d).acActive = (getRegValue data 41 &&& 2 ^ 11 != 0) ∧
     (parseStatusData data d).minutesToFull = (getRegValue data 58 : ℤ) ∧
     (parseStatusData data d).minutesToEmpty = (getRegValue data 59 : ℤ)) ∧
    ∀ data2 : List Nat, data2.length = data.length →
      (∀ i : Nat, i ≠ 20 → getRegValue data2 i = getRegValue data i) →
      parseStatusData data2 d = parseStatusData data d := by
  have hlt : ¬ data.length < 10 := by omega
  constructor
  · unfold parseStatusData
    rw [if_neg hlt]
    refine ⟨rfl, rfl, rfl, rfl, rfl, rfl, rfl, rfl, rfl, rfl, rfl⟩
  · intro data2 hl h20
    have hlt2 : ¬ data2.length < 10 := by omega
    unfold parseStatusData
    rw [if_neg hlt, if_neg hlt2,
      h20 3 (by decide), h20 4 (by decide), h20 6 (by decide),
      h20 39 (by decide), h20 22 (by decide), h20 56 (by decide),
      h20 41 (by decide), h20 58 (by decide), h20 59 (by decide)]

/-- Synthetic status payload: 120 bytes, register 22 = 4900 (bytes 19, 36
at offset 50) and register 56 = 875 (bytes 3, 107 at offset 118). -/
def statusPayload : List Nat :=
  List.replicate 50 0 ++ [19, 36] ++ List.replicate 66 0 ++ [3, 107]

/-- C5 witness: on the synthetic payload, register 56 = 875 yields battery
percent 87.5 and register 22 = 4900 yields battery voltage 49.0. -/
theorem c5_status_mapping_witness :
    (parseStatusData statusPayload pbInit).batteryPercent = 87.5 ∧
    (parseStatusData statusPayload pbInit).batteryVoltage = 49 := by
  have h := (c5_status_mapping statusPayload pbInit (by decide)).1
  have h56 : getRegValue statusPayload 56 = 875 := by decide
  have h22 : getRegValue statusPayload 22 = 4900 := by decide
  refine ⟨?_, ?_⟩
  · rw [h.1, h56]; norm_num
  · rw [h.2.1, h22]; norm_num

/-- A discovery environment in which the transport connects, the service
and both characteristics are found, but the notify characteristic does
not support notifications. -/
def degradedEnv : DiscoveryEnv :=
  { connectOk := true
    servicePresent := true
    writeCharPresent := true
    notifyCharPresent := true
    canNotify := false }

/-- C6 counterexample.  With the notify characteristic present but not
supporting notifications, `discoverServices` still returns success (it
merely skips the subscription), `connectToDevice` reaches the connected
state, and an update tick that runs this attempt resets the failure
counter to 0 instead of incrementing it — the claim said such an attempt
is treated as a discovery failure. -/
theorem c6_counterexample :
    degradedEnv.canNotify = false ∧
    (discoverServices degradedEnv).1 = true ∧
    (discoverServices degradedEnv).2 = false ∧
    connectToDevice degradedEnv = true ∧
    updateDisconnected ⟨false, 0, 0⟩ 70000 (connectToDevice degradedEnv) =
      (⟨true, 0, 70000⟩, true) := by
  decide

/-- C6 amended.  If the transport connects and the service and both
characteristics are found, the attempt succeeds whether or not the notify
characteristic supports notifications: the subscription happens exactly
when `canNotify` holds, the attempt reaches the connected state, and the
failure counter resets to 0; only a transport failure or a missing
service/characteristic fails the attempt. -/
theorem c6_discovery (env : DiscoveryEnv) (s : UpdateState) (now : Nat)
    (hc : env.connectOk = true) (hs : env.servicePresent = true)
    (hw : env.writeCharPresent = true) (hn : env.notifyCharPresent = true)
    (hf : s.consecutiveFailures < MAX_FAILURES)
    (ht : retryInterval s.consecutiveFailures < now - s.lastReconnectAttempt) :
    connectToDevice env = true ∧
    (discoverServices env).2 = env.canNotify ∧
    updateDisconnected s now (connectToDevice env) =
      ({ connected := true
         consecutiveFailures := 0
         lastReconnectAttempt := now }, true) ∧
    (∀ env2 : DiscoveryEnv, env2.notifyCharPresent = false →
      connectToDevice env2 = false) := by
  have hcon : connectToDevice env = true := by
    simp [connectToDevice, discoverServices, hc, hs, hw, hn]
  refine ⟨hcon, ?_, ?_, ?_⟩
  · simp [discoverServices, hs, hw, hn]
  · rw [hcon]
    unfold updateDisconnected
    rw [if_neg (by omega), if_pos ht, if_pos rfl]
  · intro env2 hn2
    unfold connectToDevice discoverServices
    rcases henv : env2.connectOk
    · simp
    · simp [hn2]

/-- C6 amended, witness: the degraded environment (canNotify false) with a
fresh retry state at t = 70000 ms connects and resets the counter. -/
theorem c6_discovery_witness :
    connectToDevice degradedEnv = true ∧
    (discoverServices degradedEnv).2 = degradedEnv.canNotify ∧
    updateDisconnected ⟨false, 0, 0⟩ 70000 (connectToDevice degradedEnv) =
      ({ connected := true
         consecutiveFailures := 0
         lastReconnectAttempt := 70000 }, true) ∧
    (∀ env2 : DiscoveryEnv, env2.notifyCharPresent = false →
      connectToDevice env2 = false) :=
  c6_discovery degradedEnv ⟨false, 0, 0⟩ 70000 rfl rfl rfl rfl
    (by decide) (by decide)

/-- C7.  A notification buffer shorter than 10 bytes is rejected and no
telemetry state is mutated: the decode callback, and both parsers, return
the `PowerBankData` unchanged in every field. -/
theorem c7_too_short_no_mutation (data : List Nat) (d : PowerBankData)
    (h : data.length < 10) :
    notifyCallback data d = d ∧
    parseStatusData data d = d ∧
    parseSettingsData data d = d := by
  have hs : parseStatusData data d = d := by
    unfold parseStatusData; rw [if_pos h]
  have ht : parseSettingsData data d = d := by
    unfold parseSettingsData; rw [if_pos h]
  refine ⟨?_, hs, ht⟩
  unfold notifyCallback
  split_ifs <;> simp [hs, ht]

/-- C7 witness: a 5-byte status-opcode fragment leaves a fresh telemetry
struct untouched. -/
theorem c7_too_short_no_mutation_witness :
    notifyCallback [0x11, 0x04, 0, 0, 0] pbInit = pbInit ∧
    parseStatusData [0x11, 0x04, 0, 0, 0] pbInit = pbInit ∧
    parseSettingsData [0x11, 0x04, 0, 0, 0] pbInit = pbInit :=
  c7_too_short_no_mutation [0x11, 0x04, 0, 0, 0] pbInit (by decide)

/-- C8.  Any command issued while not connected or without a cached write
characteristic is dropped: no frame is written to the transport, nothing
is queued, and the client state (telemetry included) is fully unchanged. -/
theorem c8_command_dropped (st : ClientState) (reg value : Nat)
    (h : st.connected = false ∨ st.hasWriteChar = false) :
    sendCommand st reg value = st ∧
    toggleUSB st = st ∧ toggleDC st = st ∧ toggleAC st = st ∧
    setBuzzerEnabled st true = st ∧ setBuzzerEnabled st false = st ∧
    (∀ p : ℤ, setChargeLimit st p = st) ∧
    powerOff st = st := by
  have hsend : ∀ r v : Nat, sendCommand st r v = st := by
    intro r v
    unfold sendCommand
    rcases h with h | h <;> simp [h]
  exact ⟨hsend reg value, hsend _ _, hsend _ _, hsend _ _, hsend _ _,
    hsend _ _, fun p => hsend _ _, hsend _ _⟩

/-- C8 witness: with the link down, `toggleUSB` and `powerOff` on a fresh
client change nothing and write nothing. -/
theorem c8_command_dropped_witness :
    sendCommand ⟨false, false, pbInit, []⟩ 24 1 = ⟨false, false, pbInit, []⟩ ∧
    toggleUSB ⟨false, false, pbInit, []⟩ = ⟨false, false, pbInit, []⟩ ∧
    powerOff ⟨false, false, pbInit, []⟩ = ⟨false, false, pbInit, []⟩ :=
  ⟨(c8_command_dropped ⟨false, false, pbInit, []⟩ 24 1 (Or.inl rfl)).1,
   (c8_command_dropped ⟨false, false, pbInit, []⟩ 24 1 (Or.inl rfl)).2.1,
   (c8_command_dropped ⟨false, false, pbInit, []⟩ 24 1 (Or.inl rfl)).2.2.2.2.2.2.2⟩

/-- C9.  In the initial state the last-rendered snapshot is unset
(`lastBatteryPercent = -1 < 0`), and whenever the snapshot is unset,
`hasSignificantChange` returns true for every current status value and
every choice of thresholds; decoding status or settings payloads never
sets the snapshot, so this holds until the first `markRefreshed`. -/
theorem c9_initial_always_significant :
    pbInit.lastBatteryPercent < 0 ∧
    (∀ (d : PowerBankData) (soc pow : ℤ), d.lastBatteryPercent < 0 →
      hasSignificantChange d soc pow = true) ∧
    (∀ (data : List Nat) (d : PowerBankData),
      (parseStatusData data d).lastBatteryPercent = d.lastBatteryPercent ∧
      (parseSettingsData data d).lastBatteryPercent = d.lastBatteryPercent) := by
  refine ⟨by norm_num [pbInit], ?_, ?_⟩
  · intro d soc pow h
    unfold hasSignificantChange
    rw [if_pos h]
  · intro data d
    constructor <;>
      · simp only [parseStatusData, parseSettingsData]
        split_ifs <;> rfl

/-- C9 witness: a fresh `PowerBankData` reports a significant change at
thresholds 1 % / 5 W. -/
theorem c9_initial_always_significant_witness :
    hasSignificantChange pbInit 1 5 = true :=
  c9_initial_always_significant.2.1 pbInit 1 5
    c9_initial_always_significant.1

/-- C10.  While connected with a cached write characteristic, each toggle
writes to its control register (24 for USB, 25 for DC, 26 for AC) the
value 0 when the corresponding cached active flag is true and 1 when it is
false — derived from the cached telemetry, which the toggle itself leaves
unmodified. -/
theorem c10_toggle_from_cache (st : ClientState)
    (hc : st.connected = true) (hw : st.hasWriteChar = true) :
    toggleUSB st = { st with written :=
      st.written ++ [writeSingleFrame 24 (if st.data.usbActive then 0 else 1)] } ∧
    toggleDC st = { st with written :=
      st.written ++ [writeSingleFrame 25 (if st.data.dcActive then 0 else 1)] } ∧
    toggleAC st = { st with written :=
      st.written ++ [writeSingleFrame 26 (if st.data.acActive then 0 else 1)] } ∧
    (toggleUSB st).data = st.data ∧
    (toggleDC st).data = st.data ∧
    (toggleAC st).data = st.data := by
  have hsend : ∀ r v : Nat, sendCommand st r v =
      { st with written := st.written ++ [writeSingleFrame r v] } := by
    intro r v
    unfold sendCommand
    simp [hc, hw]
  refine ⟨hsend _ _, hsend _ _, hsend _ _, ?_, ?_, ?_⟩ <;>
    · simp only [toggleUSB, toggleDC, toggleAC]
      rw [hsend]

/-- C10 witness: a connected client whose cached state says USB is on and
AC is off writes value 0 to register 24 and value 1 to register 26. -/
theorem c10_toggle_from_cache_witness :
    toggleUSB ⟨true, true, { pbInit with usbActive := true }, []⟩ =
      { connected := true
        hasWriteChar := true
        data := { pbInit with usbActive := true }
        written := [] ++ [writeSingleFrame 24
          (if ({ pbInit with usbActive := true } : PowerBankData).usbActive
           then 0 else 1)] } ∧
    toggleAC ⟨true, true, { pbInit with usbActive := true }, []⟩ =
      { connected := true
        hasWriteChar := true
        data := { pbInit with usbActive := true }
        written := [] ++ [writeSingleFrame 26
          (if ({ pbInit with usbActive := true } : PowerBankData).acActive
           then 0 else 1)] } :=
  ⟨(c10_toggle_from_cache ⟨true, true, { pbInit with usbActive := true }, []⟩
      rfl rfl).1,
   (c10_toggle_from_cache ⟨true, true, { pbInit with usbActive := true }, []⟩
      rfl rfl).2.2.1⟩

end Fossibot
